import Mathlib

/-!
Verification of the upload-and-display form in `src/app.py` (the Streamlit
function `process_files_tab`), shallowly embedded in Lean.

The embedding models one execution of the script body of
`process_files_tab` as a pure function from its inputs (the resolved
customer name, the uploaded file, whether the Submit button fired, the
behaviour of the HTTP endpoint, and the session-stored result) to a trace
of UI/side effects, the new session-stored result, and a control outcome
(normal end, a forced rerun from `st.rerun()`, or an uncaught exception).
-/

/-! ## JSON values and Python's `json.dumps` -/

mutual

/-- JSON values, as produced by `response.json()` in `src/app.py`.
Numbers are modelled as integers (every claim involves only integer
values); a Python `None` obtained from `dict.get` is modelled as
`Json.null`.  Arrays and objects use the mutual types `JsonElems` and
`JsonMembers` (lists of values, resp. of key-value pairs). -/
inductive Json where
  | null
  | bool (b : Bool)
  | num (n : Int)
  | str (s : String)
  | arr (elts : JsonElems)
  | obj (members : JsonMembers)
deriving DecidableEq

/-- A list of JSON array elements. -/
inductive JsonElems where
  | nil
  | cons (hd : Json) (tl : JsonElems)
deriving DecidableEq

/-- A list of JSON object members (key-value pairs; Python dict keys are
unique, and every concrete object below has distinct keys). -/
inductive JsonMembers where
  | nil
  | cons (key : String) (val : Json) (tl : JsonMembers)
deriving DecidableEq

end

/-- Indentation emitted by `json.dumps(x, indent=2)` at nesting level `lvl`. -/
def pad (lvl : Nat) : String := String.pushn "" ' ' (2 * lvl)

/-- Lowercase hexadecimal digit. -/
def hexDigit (n : Nat) : Char :=
  if n < 10 then Char.ofNat (48 + n) else Char.ofNat (87 + n)

/-- Four lowercase hexadecimal digits, as in Python's `\uXXXX` escapes. -/
def hex4 (n : Nat) : String :=
  String.mk [hexDigit (n / 4096 % 16), hexDigit (n / 256 % 16),
             hexDigit (n / 16 % 16), hexDigit (n % 16)]

/-- Escape of one character inside a JSON string, following Python's
`json.dumps` with its default `ensure_ascii=True` (ASCII printable kept,
shorthand escapes for the usual control characters, `\uXXXX` otherwise,
surrogate pairs above the BMP). -/
def pyJsonEscapeChar (c : Char) : String :=
  if c = '\\' then "\\\\"
  else if c = '"' then "\\\""
  else if c = '\n' then "\\n"
  else if c = '\r' then "\\r"
  else if c = '\t' then "\\t"
  else if c.toNat = 8 then "\\b"
  else if c.toNat = 12 then "\\f"
  else if 32 ≤ c.toNat ∧ c.toNat ≤ 126 then String.singleton c
  else if c.toNat < 65536 then "\\u" ++ hex4 c.toNat
  else
    let m := c.toNat - 65536
    "\\u" ++ hex4 (55296 + m / 1024) ++ "\\u" ++ hex4 (56320 + m % 1024)

/-- A JSON string literal as rendered by Python's `json.dumps`. -/
def pyJsonQuote (s : String) : String :=
  "\"" ++ String.join (s.data.map pyJsonEscapeChar) ++ "\""

mutual

/-- `json.dumps(v, indent=2)` at nesting level `lvl`.  With an `indent`
argument Python uses separators `','` + newline-and-indent between items
and `': '` between a key and its value; empty containers stay on one
line. -/
def dumpsVal (lvl : Nat) : Json → String
  | .null => "null"
  | .bool true => "true"
  | .bool false => "false"
  | .num n => toString n
  | .str s => pyJsonQuote s
  | .arr .nil => "[]"
  | .arr xs => "[\n" ++ String.intercalate ",\n" (elemLines (lvl + 1) xs) ++ "\n" ++ pad lvl ++ "]"
  | .obj .nil => "\x7b\x7d"
  | .obj ms => "\x7b\n" ++ String.intercalate ",\n" (memberLines (lvl + 1) ms) ++ "\n" ++ pad lvl ++ "\x7d"

/-- The rendered lines of the elements of a JSON array at level `lvl`. -/
def elemLines (lvl : Nat) : JsonElems → List String
  | .nil => []
  | .cons x xs => (pad lvl ++ dumpsVal lvl x) :: elemLines lvl xs

/-- The rendered lines of the members of a JSON object at level `lvl`. -/
def memberLines (lvl : Nat) : JsonMembers → List String
  | .nil => []
  | .cons k v ms => (pad lvl ++ pyJsonQuote k ++ ": " ++ dumpsVal lvl v) :: memberLines lvl ms

end

/-- `json.dumps(v, indent=2)`, as called at `src/app.py` lines 149 and 153. -/
def pyJsonDumps (v : Json) : String := dumpsVal 0 v

/-! ## Python dict / truthiness primitives used by `process_files_tab` -/

/-- Lookup of a key in a JSON object's member list (Python dict lookup;
keys are unique in a Python dict, so first match is the match). -/
def lookupMember : JsonMembers → String → Option Json
  | .nil, _ => none
  | .cons k v rest, key => if k = key then some v else lookupMember rest key

/-- Python truthiness of a JSON value (`if x:`): `None`, `False`, `0`,
`""`, `[]` and `{}` are falsy, everything else truthy. -/
def pyTruthy : Json → Bool
  | .null => false
  | .bool b => b
  | .num n => n != 0
  | .str s => !(s == "")
  | .arr .nil => false
  | .arr (.cons _ _) => true
  | .obj .nil => false
  | .obj (.cons _ _ _) => true

/-- The Python type name of a JSON value, as it appears in an
`AttributeError` message. -/
def pyTypeName : Json → String
  | .null => "NoneType"
  | .bool _ => "bool"
  | .num _ => "int"
  | .str _ => "str"
  | .arr _ => "list"
  | .obj _ => "dict"

/-- The message of the `AttributeError` Python raises when `.get` is
called on a non-dict value. -/
def attrErrText (v : Json) : String :=
  "AttributeError: '" ++ pyTypeName v ++ "' object has no attribute 'get'"

/-- Python `x.get(key, dflt)`: on a dict, the member or the default; on
any other value it raises `AttributeError`. -/
def pyGetD (x : Json) (key : String) (dflt : Json) : Except String Json :=
  match x with
  | .obj ms => .ok ((lookupMember ms key).getD dflt)
  | _ => .error (attrErrText x)

/-- Python `x.get(key)` (no default: absent key gives `None`); raises
`AttributeError` on a non-dict. -/
def pyGet (x : Json) (key : String) : Except String Json :=
  match x with
  | .obj ms => .ok ((lookupMember ms key).getD Json.null)
  | _ => .error (attrErrText x)

/-- `result.get("data", {}).get("extracted_data", {}).get("gpt_extraction_output")`
(`src/app.py` line 143), with Python's exception propagation made
explicit: the first `.get` on a non-dict raises. -/
def pyGetChain (result : Json) : Except String Json :=
  match pyGetD result "data" (Json.obj .nil) with
  | .error e => .error e
  | .ok d =>
    match pyGetD d "extracted_data" (Json.obj .nil) with
    | .error e => .error e
    | .ok e => pyGet e "gpt_extraction_output"

/-- Existence of the nested path `data.extracted_data.gpt_extraction_output`
in a result: each intermediate step is an object member, and the final key
is present.  (This is the claim-side notion of "the path exists"; the code
itself uses the `pyGetChain` of defaulting `get` calls.) -/
def gptPath (result : Json) : Option Json :=
  match result with
  | .obj ms =>
    match lookupMember ms "data" with
    | some (.obj ds) =>
      match lookupMember ds "extracted_data" with
      | some (.obj es) => lookupMember es "gpt_extraction_output"
      | _ => none
    | _ => none
  | _ => none

/-! ## Python string primitives used by `process_files_tab` -/

/-- Whitespace for Python's `str.strip()` (space, tab, newline, carriage
return, vertical tab, form feed). -/
def isPySpace (c : Char) : Bool :=
  c == ' ' || c == '\t' || c == '\n' || c == '\x0d' || c.toNat == 11 || c.toNat == 12

/-- Python `s.strip()`: drop leading and trailing whitespace. -/
def pyStrip (s : String) : String :=
  String.mk (((s.data.dropWhile isPySpace).reverse.dropWhile isPySpace).reverse)

/-- Left-to-right, non-overlapping replacement of the pattern `old` by
`new` in a character list, as Python's `str.replace` does.  The `fuel`
argument only makes the recursion structural: with `fuel` at least the
length of the input and a non-empty pattern it never runs out. -/
def replaceCharsAux (old new : List Char) : Nat → List Char → List Char
  | 0, s => s
  | _ + 1, [] => []
  | fuel + 1, c :: rest =>
    if !old.isEmpty && old.isPrefixOf (c :: rest) then
      new ++ replaceCharsAux old new fuel (List.drop old.length (c :: rest))
    else
      c :: replaceCharsAux old new fuel rest

/-- Python `s.replace(old, new)` for a non-empty pattern: every
occurrence of `old`, scanned left to right without overlap, becomes
`new`. -/
def pyReplace (s old new : String) : String :=
  String.mk (replaceCharsAux old.data new.data s.data.length s.data)

/-! ## Constants and inputs of `process_files_tab` -/

/-- `API_BASE_URL` (`src/app.py` line 14). -/
def API_BASE_URL : String := "https://ride-popularity-wrestling-uncle.trycloudflare.com/api"

/-- `PROCESSING_ENDPOINT` (`src/app.py` line 15). -/
def PROCESSING_ENDPOINT : String := "/process/OcrBytes"

/-- `CUSTOMER_NAMES` (`src/app.py` lines 17-22), the customer allow-list. -/
def CUSTOMER_NAMES : List String := ["voorbeelden", "allseas", "visdeal", "berencourt"]

/-- The file returned by `st.file_uploader`: a name and its raw bytes
(`uploaded_file.name` and `uploaded_file.getvalue()`). -/
structure UploadedFile where
  name : String
  contents : List Nat
deriving DecidableEq

/-- The behaviour of the HTTP endpoint for the single `requests.post`
call: a 2xx response with a JSON body, a 2xx response whose body fails to
parse as JSON (`response.json()` raises), a non-2xx status
(`raise_for_status()` raises `HTTPError`), or a connection-level failure
(`requests.post` itself raises).  Each failure carries the exception
detail text.  In the `requests` library all three failures,
`JSONDecodeError` included, are subclasses of
`requests.exceptions.RequestException`. -/
inductive HttpResponse where
  | okJson (body : Json)
  | okBadJson (detail : String)
  | errStatus (detail : String)
  | connError (detail : String)
deriving DecidableEq

/-- The exception detail of a failing HTTP interaction, `none` on
success. -/
def failureDetail : HttpResponse → Option String
  | .okJson _ => none
  | .okBadJson d => some d
  | .errStatus d => some d
  | .connError d => some d

/-- One observable step of a run of `process_files_tab`: a Streamlit UI
call, the artificial delay, the HTTP request, or a write to the
session-stored result. -/
inductive Effect where
  | header (text : String)
  | info (text : String)
  | errorMsg (text : String)
  | successMsg (text : String)
  | warningMsg (text : String)
  | markdown (text : String)
  | spinner (text : String)
  | sleep (seconds : Nat)
  | post (url : String) (accept : String) (fileName : String) (fileBytes : List Nat)
      (customerName : String)
  | clearResult
  | storeResult (body : Json)
  | code (text : String) (language : String)
  | downloadButton (label : String) (payload : String) (fileName : String) (mime : String)
  | jsonView (body : Json)
deriving DecidableEq

/-- How a run of the script body ends: fall through normally, `st.rerun()`
(which aborts the script and forces a fresh rerun), or an exception that
no handler catches. -/
inductive Control where
  | normal
  | rerun
  | uncaught (message : String)
deriving DecidableEq

/-- The outcome of one run: the effect trace, the session-stored
`processing_result` afterwards, and the control outcome. -/
structure RunResult where
  trace : List Effect
  result : Option Json
  control : Control
deriving DecidableEq

/-! ## The messages of `src/app.py`, verbatim -/

/-- `st.header` text (`src/app.py` line 56). -/
def headerText : String := "🧠 Process Files - Capture Platform (Unified Model)"

/-- The invalid-customer error (`src/app.py` line 84). -/
def invalidCustomerText (name : String) : String :=
  "🚨 Invalid customer name: '" ++ name ++ "'. Please select a valid customer from the list."

/-- The schema info notice (`src/app.py` line 89). -/
def infoText (name : String) : String :=
  "The Model Prompt and Example Schema are now loaded by the backend based on the **Customer Name** you enter/select: **" ++ name ++ "**"

/-- The empty-name error (`src/app.py` line 99). -/
def nameRequiredText : String := "🚨 Please enter/select a Customer Name."

/-- The missing-file error (`src/app.py` line 104). -/
def fileRequiredText : String := "🚨 Please upload a file to process."

/-- The spinner text (`src/app.py` line 121). -/
def spinnerText (name : String) : String := "Processing file for '" ++ name ++ "'..."

/-- The success notice (`src/app.py` line 130). -/
def successText (fileName name : String) : String :=
  "File '" ++ fileName ++ "' processed successfully for customer '" ++ name ++ "'!"

/-- The `RequestException` error notice (`src/app.py` line 135). -/
def apiFailedText (detail : String) : String := "API request failed: " ++ detail

/-- The missing-field warning (`src/app.py` line 158). -/
def notFoundWarningText : String := "⚠️ Extracted JSON output not found in the response."

/-- The download button label (`src/app.py` line 152). -/
def downloadLabel : String := "📥 Download Extracted JSON"

/-! ## The script body of `process_files_tab` -/

/-- The download file name (`src/app.py` line 154):
`uploaded_file.name.replace('.pdf', '')` interpolated into
`..._{customer_name}_extracted.json` when a file is present, else the
fallback `extracted_{customer_name}.json`. -/
def downloadFileName (uploaded : Option UploadedFile) (customer_name : String) : String :=
  match uploaded with
  | some f => (pyReplace f.name ".pdf" "") ++ "_" ++ customer_name ++ "_extracted.json"
  | none => "extracted_" ++ customer_name ++ ".json"

/-- The result-rendering section (`src/app.py` lines 141-161): runs only
when the stored `processing_result` is truthy; computes the `get` chain
(which can raise on non-dict values), then renders the extracted view or
the warning, followed by the raw result tree. -/
def renderSection (customer_name : String) (uploaded : Option UploadedFile)
    (stored : Option Json) : List Effect × Control :=
  match stored with
  | none => ([], .normal)
  | some result =>
    if pyTruthy result then
      match pyGetChain result with
      | .error e => ([], .uncaught e)
      | .ok gpt_json =>
        let fxExtract :=
          if pyTruthy gpt_json then
            [Effect.markdown "### 📄 Extracted JSON",
             Effect.code (pyJsonDumps gpt_json) "json",
             Effect.downloadButton downloadLabel (pyJsonDumps gpt_json)
               (downloadFileName uploaded customer_name) "application/json"]
          else
            [Effect.warningMsg notFoundWarningText]
        (Effect.markdown "<hr>" :: fxExtract ++
          [Effect.markdown "### 📄 Processed Document : Summary", Effect.jsonView result],
         .normal)
    else ([], .normal)

/-- The effects every run emits before any branching: the tab header
(line 56) and, when the invalid-name guard does not fire, the schema info
notice (line 89). -/
def runPrefixFx (name : String) : List Effect :=
  [Effect.header headerText, Effect.info (infoText name)]

/-- The effects of the submit phase up to and including the single
`requests.post` call (`src/app.py` lines 119-124): clear the stored
result, show the spinner, sleep 5 seconds, issue the POST with the
`accept: application/json` header, the file as multipart field `file`
(filename and raw bytes) and the customer name as form field
`customer_name`. -/
def submitFx (name : String) (f : UploadedFile) : List Effect :=
  [Effect.clearResult, Effect.spinner (spinnerText name), Effect.sleep 5,
   Effect.post (API_BASE_URL ++ PROCESSING_ENDPOINT) "application/json" f.name f.contents name]

/-- One run of the body of `process_files_tab` (`src/app.py` lines
55-161).  `customer_name` is the value resolved from the radio /
text-input / selectbox widgets, `uploaded` the file-uploader state,
`submitClicked` whether `st.button("Submit")` fired, `resp` the
behaviour of the endpoint should a request be issued, and `stored` the
session-stored `processing_result` entering the run. -/
def processFilesTab (customer_name : String) (uploaded : Option UploadedFile)
    (submitClicked : Bool) (resp : HttpResponse) (stored : Option Json) : RunResult :=
  -- line 83: `if customer_name and customer_name not in CUSTOMER_NAMES:` — early return
  if customer_name != "" && !(CUSTOMER_NAMES.contains customer_name) then
    { trace := [Effect.header headerText, Effect.errorMsg (invalidCustomerText customer_name)],
      result := stored, control := .normal }
  else
    if submitClicked then
      -- line 98: `if not customer_name.strip():`
      if pyStrip customer_name == "" then
        { trace := runPrefixFx customer_name ++ [Effect.errorMsg nameRequiredText, Effect.clearResult],
          result := none, control := .normal }
      else
        match uploaded with
        -- line 103: `if uploaded_file is None:`
        | none =>
          { trace := runPrefixFx customer_name ++ [Effect.errorMsg fileRequiredText, Effect.clearResult],
            result := none, control := .normal }
        | some file =>
          match resp with
          | .okJson body =>
            -- lines 124-132: store the parsed body, success notice, st.rerun()
            { trace := runPrefixFx customer_name ++ submitFx customer_name file ++
                [Effect.storeResult body, Effect.successMsg (successText file.name customer_name)],
              result := some body, control := .rerun }
          | .okBadJson d | .errStatus d | .connError d =>
            -- lines 134-139: both handlers show the detail and clear the result;
            -- the render section then sees a cleared result
            let fxFail := runPrefixFx customer_name ++ submitFx customer_name file ++
              [Effect.errorMsg (apiFailedText d), Effect.clearResult]
            let render := renderSection customer_name uploaded none
            { trace := fxFail ++ render.1, result := none, control := render.2 }
    else
      let render := renderSection customer_name uploaded stored
      { trace := runPrefixFx customer_name ++ render.1, result := stored, control := render.2 }

/-! ## Effect counting helpers -/

/-- Number of effects in a trace satisfying `p`. -/
def countP (p : Effect → Bool) (tr : List Effect) : Nat := (tr.filter p).length

/-- Whether an effect is the HTTP POST. -/
def isPost : Effect → Bool
  | .post _ _ _ _ _ => true
  | _ => false

/-- Whether an effect writes the session-stored result. -/
def isStateWrite : Effect → Bool
  | .clearResult => true
  | .storeResult _ => true
  | _ => false

/-- Whether an effect is an error notice. -/
def isErrorFx : Effect → Bool
  | .errorMsg _ => true
  | _ => false

/-- Whether an effect renders the raw result tree (`st.json`). -/
def isJsonViewFx : Effect → Bool
  | .jsonView _ => true
  | _ => false

/-- Whether an effect is the extracted-view code block (`st.code`). -/
def isCodeFx : Effect → Bool
  | .code _ _ => true
  | _ => false

/-- Whether an effect is the download button. -/
def isDownloadFx : Effect → Bool
  | .downloadButton _ _ _ _ => true
  | _ => false

/-- Whether an effect is the missing-field warning. -/
def isWarningFx : Effect → Bool
  | .warningMsg _ => true
  | _ => false

/-! ## Helper lemmas -/

/-- Counting distributes over trace concatenation. -/
theorem countP_append (p : Effect → Bool) (a b : List Effect) :
    countP p (a ++ b) = countP p a + countP p b := by
  simp [countP, List.filter_append]

/-- The four allow-list members, spelt out. -/
theorem mem_customer (name : String) (hmem : name ∈ CUSTOMER_NAMES) :
    name = "voorbeelden" ∨ name = "allseas" ∨ name = "visdeal" ∨ name = "berencourt" := by
  simpa [CUSTOMER_NAMES] using hmem

/-- The rendering section issues no HTTP request. -/
theorem renderSection_no_post (name : String) (uploaded : Option UploadedFile)
    (stored : Option Json) :
    countP isPost (renderSection name uploaded stored).1 = 0 := by
  cases stored with
  | none => rfl
  | some result =>
    simp only [renderSection]
    cases ht : pyTruthy result with
    | false => rfl
    | true =>
      cases hg : pyGetChain result with
      | error e => rfl
      | ok g =>
        cases hgt : pyTruthy g <;>
          simp [hgt, countP, isPost, List.filter]

/-- The rendering section never writes the session-stored result. -/
theorem renderSection_no_write (name : String) (uploaded : Option UploadedFile)
    (stored : Option Json) :
    countP isStateWrite (renderSection name uploaded stored).1 = 0 := by
  cases stored with
  | none => rfl
  | some result =>
    simp only [renderSection]
    cases ht : pyTruthy result with
    | false => rfl
    | true =>
      cases hg : pyGetChain result with
      | error e => rfl
      | ok g =>
        cases hgt : pyTruthy g <;>
          simp [hgt, countP, isStateWrite, List.filter]

/-- Without a Submit click, the run is the header, the info notice and the
rendering section, and the stored result is passed through. -/
theorem run_render_path (name : String) (uploaded : Option UploadedFile)
    (resp : HttpResponse) (stored : Option Json) (hmem : name ∈ CUSTOMER_NAMES) :
    processFilesTab name uploaded false resp stored =
      { trace := runPrefixFx name ++ (renderSection name uploaded stored).1,
        result := stored, control := (renderSection name uploaded stored).2 } := by
  rcases mem_customer name hmem with rfl | rfl | rfl | rfl <;> rfl

/-- The rendering section on a truthy stored result whose `get` chain
succeeds: the horizontal rule, then the extracted view or the warning,
then the raw tree. -/
theorem renderSection_ok (name : String) (uploaded : Option UploadedFile)
    (result g : Json) (ht : pyTruthy result = true) (hg : pyGetChain result = .ok g) :
    renderSection name uploaded (some result) =
      (Effect.markdown "<hr>" ::
        (if pyTruthy g then
          [Effect.markdown "### 📄 Extracted JSON",
           Effect.code (pyJsonDumps g) "json",
           Effect.downloadButton downloadLabel (pyJsonDumps g)
             (downloadFileName uploaded name) "application/json"]
         else [Effect.warningMsg notFoundWarningText]) ++
        [Effect.markdown "### 📄 Processed Document : Summary", Effect.jsonView result],
       .normal) := by
  simp [renderSection, ht, hg]

/-- A valid submission with a parseable-JSON 2xx response: clear, spinner,
sleep, one POST, store, success notice, rerun. -/
theorem run_submit_success (name : String) (f : UploadedFile) (body : Json)
    (stored : Option Json) (hmem : name ∈ CUSTOMER_NAMES) :
    processFilesTab name (some f) true (.okJson body) stored =
      { trace := runPrefixFx name ++ submitFx name f ++
          [Effect.storeResult body, Effect.successMsg (successText f.name name)],
        result := some body, control := .rerun } := by
  rcases mem_customer name hmem with rfl | rfl | rfl | rfl <;> rfl

/-- A valid submission whose HTTP interaction fails (bad status, network
error or unparseable body): the error notice with the detail, the result
cleared, no rerun. -/
theorem run_submit_failure (name : String) (f : UploadedFile) (d : String)
    (resp : HttpResponse) (stored : Option Json)
    (hmem : name ∈ CUSTOMER_NAMES) (hfail : failureDetail resp = some d) :
    processFilesTab name (some f) true resp stored =
      { trace := runPrefixFx name ++ submitFx name f ++
          [Effect.errorMsg (apiFailedText d), Effect.clearResult],
        result := none, control := .normal } := by
  cases resp with
  | okJson body => simp [failureDetail] at hfail
  | okBadJson e =>
    simp only [failureDetail, Option.some.injEq] at hfail
    subst hfail
    rcases mem_customer name hmem with rfl | rfl | rfl | rfl <;> rfl
  | errStatus e =>
    simp only [failureDetail, Option.some.injEq] at hfail
    subst hfail
    rcases mem_customer name hmem with rfl | rfl | rfl | rfl <;> rfl
  | connError e =>
    simp only [failureDetail, Option.some.injEq] at hfail
    subst hfail
    rcases mem_customer name hmem with rfl | rfl | rfl | rfl <;> rfl

/-- Strict existence of the `gpt_extraction_output` path implies the
stored result is truthy and the defaulting `get` chain of the code
returns exactly the value at the path. -/
theorem gptPath_spec (result v : Json) (h : gptPath result = some v) :
    pyTruthy result = true ∧ pyGetChain result = .ok v := by
  cases result with
  | null => simp [gptPath] at h
  | bool b => simp [gptPath] at h
  | num n => simp [gptPath] at h
  | str s => simp [gptPath] at h
  | arr xs => simp [gptPath] at h
  | obj ms =>
    cases hd : lookupMember ms "data" with
    | none => simp [gptPath, hd] at h
    | some dv =>
      cases dv with
      | null => simp [gptPath, hd] at h
      | bool b => simp [gptPath, hd] at h
      | num n => simp [gptPath, hd] at h
      | str s => simp [gptPath, hd] at h
      | arr xs => simp [gptPath, hd] at h
      | obj ds =>
        cases he : lookupMember ds "extracted_data" with
        | none => simp [gptPath, hd, he] at h
        | some ev =>
          cases ev with
          | null => simp [gptPath, hd, he] at h
          | bool b => simp [gptPath, hd, he] at h
          | num n => simp [gptPath, hd, he] at h
          | str s => simp [gptPath, hd, he] at h
          | arr xs => simp [gptPath, hd, he] at h
          | obj es =>
            have hv : lookupMember es "gpt_extraction_output" = some v := by
              simpa [gptPath, hd, he] using h
            constructor
            · cases ms with
              | nil => simp [lookupMember] at hd
              | cons k w tl => rfl
            · simp [pyGetChain, pyGetD, pyGet, hd, he, hv]

/-- The invalid-name guard (`src/app.py` lines 83-85) fires for every
non-empty name outside the allow-list: the error message and an early
return, before the uploader, the button and the network code. -/
theorem run_invalid_name (name : String) (uploaded : Option UploadedFile)
    (clicked : Bool) (resp : HttpResponse) (stored : Option Json)
    (hne : name ≠ "") (hnot : name ∉ CUSTOMER_NAMES) :
    processFilesTab name uploaded clicked resp stored =
      { trace := [Effect.header headerText, Effect.errorMsg (invalidCustomerText name)],
        result := stored, control := .normal } := by
  have hcond : (name != "" && !(CUSTOMER_NAMES.contains name)) = true := by
    simp [hne, hnot]
  unfold processFilesTab
  rw [hcond]
  rfl

/-! ## The claims -/

/-- C1: for every submission whose preconditions hold (customer name in
the allow-list — hence non-empty — and a file attached), the run first
clears the prior stored result, then sleeps the fixed 5 time-units, then
issues exactly one POST to `API_BASE_URL ++ PROCESSING_ENDPOINT` with the
`accept: application/json` header, the file as multipart field `file`
(filename and raw bytes) and the customer name as form field
`customer_name` (this is `submitFx`); on a parseable-JSON success the
body becomes the stored ProcessingResult, the success notice is shown,
and a full view refresh (`st.rerun`) is forced. -/
theorem c1_submit_success_flow (name : String) (f : UploadedFile) (body : Json)
    (stored : Option Json) (hmem : name ∈ CUSTOMER_NAMES) :
    processFilesTab name (some f) true (.okJson body) stored =
      { trace := runPrefixFx name ++ submitFx name f ++
          [Effect.storeResult body, Effect.successMsg (successText f.name name)],
        result := some body, control := .rerun } ∧
    countP isPost (processFilesTab name (some f) true (.okJson body) stored).trace = 1 := by
  have h := run_submit_success name f body stored hmem
  refine ⟨h, ?_⟩
  rw [h]
  simp [countP_append, countP, runPrefixFx, submitFx, isPost, List.filter]

/-- Witness for C1 at a concrete valid submission. -/
theorem c1_submit_success_flow_witness :
    "voorbeelden" ∈ CUSTOMER_NAMES ∧
    (processFilesTab "voorbeelden" (some ⟨"a.pdf", [0]⟩) true (.okJson .null) none =
      { trace := runPrefixFx "voorbeelden" ++ submitFx "voorbeelden" ⟨"a.pdf", [0]⟩ ++
          [Effect.storeResult .null, Effect.successMsg (successText "a.pdf" "voorbeelden")],
        result := some .null, control := .rerun } ∧
     countP isPost (processFilesTab "voorbeelden" (some ⟨"a.pdf", [0]⟩) true
        (.okJson .null) none).trace = 1) :=
  ⟨by decide, c1_submit_success_flow "voorbeelden" ⟨"a.pdf", [0]⟩ .null none (by decide)⟩

/-- C2: for every customer-name input outside the allow-list, submission
is blocked and no POST is issued; for a non-empty such value the run is
exactly the invalid-customer error state and an early return. -/
theorem c2_invalid_customer_blocked (name : String) (uploaded : Option UploadedFile)
    (clicked : Bool) (resp : HttpResponse) (stored : Option Json)
    (hnot : name ∉ CUSTOMER_NAMES) :
    countP isPost (processFilesTab name uploaded clicked resp stored).trace = 0 ∧
    (name ≠ "" →
      processFilesTab name uploaded clicked resp stored =
        { trace := [Effect.header headerText, Effect.errorMsg (invalidCustomerText name)],
          result := stored, control := .normal }) := by
  by_cases hne : name = ""
  · subst hne
    refine ⟨?_, fun h => absurd rfl h⟩
    cases clicked with
    | true =>
      cases uploaded <;> rfl
    | false =>
      have h : processFilesTab "" uploaded false resp stored =
          { trace := runPrefixFx "" ++ (renderSection "" uploaded stored).1,
            result := stored, control := (renderSection "" uploaded stored).2 } := rfl
      rw [h, countP_append, renderSection_no_post]
      rfl
  · have h := run_invalid_name name uploaded clicked resp stored hne hnot
    rw [h]
    exact ⟨rfl, fun _ => rfl⟩

/-- Witness for C2 at a concrete unlisted name. -/
theorem c2_invalid_customer_blocked_witness :
    "bogus" ∉ CUSTOMER_NAMES ∧
    (countP isPost (processFilesTab "bogus" none true (.connError "") none).trace = 0 ∧
     ("bogus" ≠ "" →
       processFilesTab "bogus" none true (.connError "") none =
         { trace := [Effect.header headerText, Effect.errorMsg (invalidCustomerText "bogus")],
           result := none, control := .normal })) :=
  ⟨by decide, c2_invalid_customer_blocked "bogus" none true (.connError "") none (by decide)⟩

/-- C3: every submission that ends in HTTP failure (non-2xx, network
error, or non-JSON body) shows an error notice containing the failure
detail, leaves the stored ProcessingResult cleared, forces no view
refresh — and a subsequent valid submission still succeeds (no
lockout). -/
theorem c3_http_failure_terminal (name : String) (f : UploadedFile) (d : String)
    (resp : HttpResponse) (stored : Option Json)
    (hmem : name ∈ CUSTOMER_NAMES) (hfail : failureDetail resp = some d) :
    ((processFilesTab name (some f) true resp stored).trace =
        runPrefixFx name ++ submitFx name f ++
          [Effect.errorMsg (apiFailedText d), Effect.clearResult] ∧
      (processFilesTab name (some f) true resp stored).result = none ∧
      (processFilesTab name (some f) true resp stored).control = .normal) ∧
    (∀ (name2 : String) (f2 : UploadedFile) (body : Json) (stored2 : Option Json),
      name2 ∈ CUSTOMER_NAMES →
        (processFilesTab name2 (some f2) true (.okJson body) stored2).result = some body ∧
        (processFilesTab name2 (some f2) true (.okJson body) stored2).control = .rerun) := by
  have h := run_submit_failure name f d resp stored hmem hfail
  refine ⟨⟨by rw [h], by rw [h], by rw [h]⟩, ?_⟩
  intro name2 f2 body stored2 hm2
  have h2 := run_submit_success name2 f2 body stored2 hm2
  exact ⟨by rw [h2], by rw [h2]⟩

/-- Witness for C3 at a concrete failing response followed by a concrete
succeeding one. -/
theorem c3_http_failure_terminal_witness :
    "allseas" ∈ CUSTOMER_NAMES ∧ failureDetail (.errStatus "boom") = some "boom" ∧
    (((processFilesTab "allseas" (some ⟨"b.pdf", [1]⟩) true (.errStatus "boom")
          (some .null)).trace =
        runPrefixFx "allseas" ++ submitFx "allseas" ⟨"b.pdf", [1]⟩ ++
          [Effect.errorMsg (apiFailedText "boom"), Effect.clearResult] ∧
      (processFilesTab "allseas" (some ⟨"b.pdf", [1]⟩) true (.errStatus "boom")
          (some .null)).result = none ∧
      (processFilesTab "allseas" (some ⟨"b.pdf", [1]⟩) true (.errStatus "boom")
          (some .null)).control = .normal) ∧
    (∀ (name2 : String) (f2 : UploadedFile) (body : Json) (stored2 : Option Json),
      name2 ∈ CUSTOMER_NAMES →
        (processFilesTab name2 (some f2) true (.okJson body) stored2).result = some body ∧
        (processFilesTab name2 (some f2) true (.okJson body) stored2).control = .rerun)) :=
  ⟨by decide, by decide,
   c3_http_failure_terminal "allseas" ⟨"b.pdf", [1]⟩ "boom" (.errStatus "boom") (some .null)
     (by decide) (by decide)⟩

/-- The mocked ProcessingResult of C4:
`{"data":{"extracted_data":{"gpt_extraction_output":{"a":1}}}}`. -/
def c4Result : Json :=
  .obj (.cons "data" (.obj (.cons "extracted_data"
    (.obj (.cons "gpt_extraction_output" (.obj (.cons "a" (.num 1) .nil)) .nil)) .nil)) .nil)

/-- C4: with the stored ProcessingResult
`{"data":{"extracted_data":{"gpt_extraction_output":{"a":1}}}}`, the
rendered extracted view is the 2-space-indented pretty-print of
`{"a":1}`, the download payload is the same string, and that payload is
the `gpt_extraction_output` subtree only — not the full response. -/
theorem c4_extracted_view_and_download :
    (processFilesTab "voorbeelden" (some ⟨"doc.pdf", [0]⟩) false (.connError "")
        (some c4Result)).trace =
      runPrefixFx "voorbeelden" ++
        [Effect.markdown "<hr>",
         Effect.markdown "### 📄 Extracted JSON",
         Effect.code "\x7b\n  \"a\": 1\n\x7d" "json",
         Effect.downloadButton downloadLabel "\x7b\n  \"a\": 1\n\x7d"
           "doc_voorbeelden_extracted.json" "application/json",
         Effect.markdown "### 📄 Processed Document : Summary",
         Effect.jsonView c4Result] ∧
    pyJsonDumps (Json.obj (.cons "a" (Json.num 1) .nil)) = "\x7b\n  \"a\": 1\n\x7d" ∧
    pyJsonDumps c4Result ≠ "\x7b\n  \"a\": 1\n\x7d" := by
  exact ⟨by decide, by decide, by decide⟩

/-- C5 counterexample: the JSON object `{}` is a possible successful
response body, hence a possible stored ProcessingResult, yet with it the
run renders nothing at all — no raw-result tree and no warning — because
line 141 of `src/app.py` gates all rendering on Python truthiness of the
stored value. -/
theorem c5_counterexample :
    (processFilesTab "voorbeelden" none false (.connError "") (some (Json.obj .nil))).result =
      some (Json.obj .nil) ∧
    countP isJsonViewFx (processFilesTab "voorbeelden" none false (.connError "")
        (some (Json.obj .nil))).trace = 0 ∧
    countP isWarningFx (processFilesTab "voorbeelden" none false (.connError "")
        (some (Json.obj .nil))).trace = 0 := by
  exact ⟨by decide, by decide, by decide⟩

/-- C5 as amended: for every truthy stored ProcessingResult whose
defaulting `get` chain runs without raising, the full raw result is
rendered as a generic JSON tree regardless of whether the extracted-field
view succeeded; in particular, when the `gpt_extraction_output` value is
absent or falsy the warning is shown and the raw response is still
rendered in full. -/
theorem c5_amended_raw_rendering (name : String) (uploaded : Option UploadedFile)
    (resp : HttpResponse) (result g : Json)
    (hmem : name ∈ CUSTOMER_NAMES) (ht : pyTruthy result = true)
    (hg : pyGetChain result = .ok g) :
    Effect.jsonView result ∈ (processFilesTab name uploaded false resp (some result)).trace ∧
    (pyTruthy g = false →
      Effect.warningMsg notFoundWarningText ∈
        (processFilesTab name uploaded false resp (some result)).trace) := by
  rw [run_render_path name uploaded resp (some result) hmem,
      renderSection_ok name uploaded result g ht hg]
  constructor
  · simp
  · intro hga
    simp [hga]

/-- Witness for C5 as amended: a truthy stored result with no
`gpt_extraction_output` anywhere, whose `get` chain returns `None`. -/
theorem c5_amended_raw_rendering_witness :
    "voorbeelden" ∈ CUSTOMER_NAMES ∧
    pyTruthy (Json.obj (.cons "x" (Json.num 1) .nil)) = true ∧
    pyGetChain (Json.obj (.cons "x" (Json.num 1) .nil)) = .ok Json.null ∧
    (Effect.jsonView (Json.obj (.cons "x" (Json.num 1) .nil)) ∈
        (processFilesTab "voorbeelden" none false (.connError "")
          (some (Json.obj (.cons "x" (Json.num 1) .nil)))).trace ∧
      (pyTruthy Json.null = false →
        Effect.warningMsg notFoundWarningText ∈
          (processFilesTab "voorbeelden" none false (.connError "")
            (some (Json.obj (.cons "x" (Json.num 1) .nil)))).trace)) :=
  ⟨by decide, by decide, by rfl,
   c5_amended_raw_rendering "voorbeelden" none (.connError "")
     (Json.obj (.cons "x" (Json.num 1) .nil)) Json.null (by decide) (by decide) (by rfl)⟩

/-- C6: a valid customer name with no file attached blocks with the
file-required error, clears the stored result, and issues no POST. -/
theorem c6_no_file_blocked (name : String) (resp : HttpResponse) (stored : Option Json)
    (hmem : name ∈ CUSTOMER_NAMES) :
    processFilesTab name none true resp stored =
      { trace := runPrefixFx name ++ [Effect.errorMsg fileRequiredText, Effect.clearResult],
        result := none, control := .normal } ∧
    countP isPost (processFilesTab name none true resp stored).trace = 0 := by
  rcases mem_customer name hmem with rfl | rfl | rfl | rfl <;> exact ⟨rfl, rfl⟩

/-- Witness for C6 at a concrete valid name. -/
theorem c6_no_file_blocked_witness :
    "visdeal" ∈ CUSTOMER_NAMES ∧
    (processFilesTab "visdeal" none true (.okJson .null) none =
      { trace := runPrefixFx "visdeal" ++ [Effect.errorMsg fileRequiredText, Effect.clearResult],
        result := none, control := .normal } ∧
     countP isPost (processFilesTab "visdeal" none true (.okJson .null) none).trace = 0) :=
  ⟨by decide, c6_no_file_blocked "visdeal" (.okJson .null) none (by decide)⟩

/-- C7 counterexample: for the uploaded file `image.png` and customer
`allseas`, the offered download name keeps the `.png` extension —
`image.png_allseas_extracted.json` — because line 154 of `src/app.py`
only substitutes the substring `.pdf`, so it differs from
`image_allseas_extracted.json`, the name the claim prescribes (base name
without its extension). -/
theorem c7_counterexample :
    (processFilesTab "allseas" (some ⟨"image.png", [0]⟩) false (.connError "")
        (some c4Result)).trace =
      runPrefixFx "allseas" ++
        [Effect.markdown "<hr>",
         Effect.markdown "### 📄 Extracted JSON",
         Effect.code "\x7b\n  \"a\": 1\n\x7d" "json",
         Effect.downloadButton downloadLabel "\x7b\n  \"a\": 1\n\x7d"
           "image.png_allseas_extracted.json" "application/json",
         Effect.markdown "### 📄 Processed Document : Summary",
         Effect.jsonView c4Result] ∧
    "image.png_allseas_extracted.json" ≠ "image_allseas_extracted.json" := by
  exact ⟨by decide, by decide⟩

/-- C7 as amended: the offered download file is named
`{N}_{customerName}_extracted.json` where `N` is the uploaded file's name
with every occurrence of the substring `.pdf` removed (so a `.pdf`
extension is stripped but any other extension is kept), with the fallback
`extracted_{customerName}.json` when no file is known. -/
theorem c7_amended_download_name (name : String) (f : UploadedFile)
    (resp : HttpResponse) (result g : Json)
    (hmem : name ∈ CUSTOMER_NAMES) (ht : pyTruthy result = true)
    (hg : pyGetChain result = .ok g) (hgt : pyTruthy g = true) :
    Effect.downloadButton downloadLabel (pyJsonDumps g)
        ((pyReplace f.name ".pdf" "") ++ "_" ++ name ++ "_extracted.json") "application/json"
      ∈ (processFilesTab name (some f) false resp (some result)).trace ∧
    Effect.downloadButton downloadLabel (pyJsonDumps g)
        ("extracted_" ++ name ++ ".json") "application/json"
      ∈ (processFilesTab name none false resp (some result)).trace := by
  constructor
  · rw [run_render_path name (some f) resp (some result) hmem,
        renderSection_ok name (some f) result g ht hg]
    simp [hgt, downloadFileName]
  · rw [run_render_path name none resp (some result) hmem,
        renderSection_ok name none result g ht hg]
    simp [hgt, downloadFileName]

/-- Witness for C7 as amended at a concrete render. -/
theorem c7_amended_download_name_witness :
    "berencourt" ∈ CUSTOMER_NAMES ∧ pyTruthy c4Result = true ∧
    pyGetChain c4Result = .ok (Json.obj (.cons "a" (Json.num 1) .nil)) ∧
    pyTruthy (Json.obj (.cons "a" (Json.num 1) .nil)) = true ∧
    (Effect.downloadButton downloadLabel (pyJsonDumps (Json.obj (.cons "a" (Json.num 1) .nil)))
        ((pyReplace "scan.pdf" ".pdf" "") ++ "_" ++ "berencourt" ++ "_extracted.json")
        "application/json"
      ∈ (processFilesTab "berencourt" (some ⟨"scan.pdf", [7]⟩) false (.connError "")
          (some c4Result)).trace ∧
     Effect.downloadButton downloadLabel (pyJsonDumps (Json.obj (.cons "a" (Json.num 1) .nil)))
        ("extracted_" ++ "berencourt" ++ ".json") "application/json"
      ∈ (processFilesTab "berencourt" none false (.connError "")
          (some c4Result)).trace) :=
  ⟨by decide, by decide, by rfl, by decide,
   c7_amended_download_name "berencourt" ⟨"scan.pdf", [7]⟩ (.connError "") c4Result
     (Json.obj (.cons "a" (Json.num 1) .nil)) (by decide) (by decide) (by rfl) (by decide)⟩

/-- C8 counterexample: rendering a stored result whose `data` member is
the integer 5 raises an AttributeError that no handler catches (the
try/except of lines 123-139 does not cover the rendering section), and no
error notice is shown — against the claim that every error during
submission or rendering is caught generically and surfaced as a UI
message. -/
theorem c8_counterexample :
    (processFilesTab "voorbeelden" none false (.connError "")
        (some (Json.obj (.cons "data" (Json.num 5) .nil)))).control =
      Control.uncaught "AttributeError: 'int' object has no attribute 'get'" ∧
    countP isErrorFx (processFilesTab "voorbeelden" none false (.connError "")
        (some (Json.obj (.cons "data" (Json.num 5) .nil)))).trace = 0 := by
  exact ⟨by decide, by decide⟩

/-- C8 as amended: every error raised during the submission's HTTP and
parse phase is caught generically and surfaced as a UI message with its
detail, the result is cleared, and the run ends normally (no escalation,
so the form stays usable); errors raised while rendering a stored result
whose `data` / `extracted_data` members are not dicts, however, escape
uncaught. -/
theorem c8_amended_submission_errors_caught (name : String) (f : UploadedFile) (d : String)
    (resp : HttpResponse) (stored : Option Json)
    (hmem : name ∈ CUSTOMER_NAMES) (hfail : failureDetail resp = some d) :
    (processFilesTab name (some f) true resp stored).control = .normal ∧
    Effect.errorMsg (apiFailedText d) ∈ (processFilesTab name (some f) true resp stored).trace ∧
    (processFilesTab name (some f) true resp stored).result = none := by
  have h := run_submit_failure name f d resp stored hmem hfail
  rw [h]
  refine ⟨rfl, ?_, rfl⟩
  simp

/-- Witness for C8 as amended at a concrete unparseable body. -/
theorem c8_amended_submission_errors_caught_witness :
    "voorbeelden" ∈ CUSTOMER_NAMES ∧
    failureDetail (.okBadJson "Expecting value") = some "Expecting value" ∧
    ((processFilesTab "voorbeelden" (some ⟨"a.pdf", [0]⟩) true (.okBadJson "Expecting value")
        none).control = .normal ∧
     Effect.errorMsg (apiFailedText "Expecting value") ∈
       (processFilesTab "voorbeelden" (some ⟨"a.pdf", [0]⟩) true (.okBadJson "Expecting value")
         none).trace ∧
     (processFilesTab "voorbeelden" (some ⟨"a.pdf", [0]⟩) true (.okBadJson "Expecting value")
        none).result = none) :=
  ⟨by decide, by decide,
   c8_amended_submission_errors_caught "voorbeelden" ⟨"a.pdf", [0]⟩ "Expecting value"
     (.okBadJson "Expecting value") none (by decide) (by decide)⟩

/-- C9: re-rendering any stored ProcessingResult without a new submission
(no Submit click) never changes the stored value, issues no POST, and
performs no write to the session-stored result. -/
theorem c9_render_readonly (name : String) (uploaded : Option UploadedFile)
    (resp : HttpResponse) (stored : Option Json) :
    (processFilesTab name uploaded false resp stored).result = stored ∧
    countP isPost (processFilesTab name uploaded false resp stored).trace = 0 ∧
    countP isStateWrite (processFilesTab name uploaded false resp stored).trace = 0 := by
  cases hcond : (name != "" && !(CUSTOMER_NAMES.contains name)) with
  | true =>
    have h : processFilesTab name uploaded false resp stored =
        { trace := [Effect.header headerText, Effect.errorMsg (invalidCustomerText name)],
          result := stored, control := .normal } := by
      unfold processFilesTab
      rw [hcond]
      rfl
    rw [h]
    exact ⟨rfl, rfl, rfl⟩
  | false =>
    have h : processFilesTab name uploaded false resp stored =
        { trace := runPrefixFx name ++ (renderSection name uploaded stored).1,
          result := stored, control := (renderSection name uploaded stored).2 } := by
      unfold processFilesTab
      rw [hcond]
      rfl
    rw [h]
    refine ⟨rfl, ?_, ?_⟩
    · rw [countP_append, renderSection_no_post]
      rfl
    · rw [countP_append, renderSection_no_write]
      rfl

/-- C10: presence of the extracted field is decided by Python truthiness,
not key existence: whenever the path
`data.extracted_data.gpt_extraction_output` exists but holds a falsy
value (null, false, 0, empty string, empty object or empty array), the
extracted view and the download button are not shown and the not-found
warning is shown instead. -/
theorem c10_truthiness_decides (name : String) (uploaded : Option UploadedFile)
    (resp : HttpResponse) (result v : Json)
    (hmem : name ∈ CUSTOMER_NAMES) (hpath : gptPath result = some v)
    (hfalsy : pyTruthy v = false) :
    Effect.warningMsg notFoundWarningText ∈
      (processFilesTab name uploaded false resp (some result)).trace ∧
    countP isCodeFx (processFilesTab name uploaded false resp (some result)).trace = 0 ∧
    countP isDownloadFx (processFilesTab name uploaded false resp (some result)).trace = 0 := by
  obtain ⟨ht, hchain⟩ := gptPath_spec result v hpath
  rw [run_render_path name uploaded resp (some result) hmem,
      renderSection_ok name uploaded result v ht hchain]
  refine ⟨?_, ?_, ?_⟩
  · simp [hfalsy]
  · simp [hfalsy, countP_append, countP, runPrefixFx, isCodeFx, List.filter]
  · simp [hfalsy, countP_append, countP, runPrefixFx, isDownloadFx, List.filter]

/-- Witness for C10: the path exists and holds JSON `null`. -/
theorem c10_truthiness_decides_witness :
    "voorbeelden" ∈ CUSTOMER_NAMES ∧
    gptPath (Json.obj (.cons "data" (Json.obj (.cons "extracted_data"
        (Json.obj (.cons "gpt_extraction_output" Json.null .nil)) .nil)) .nil)) =
      some Json.null ∧
    pyTruthy Json.null = false ∧
    (Effect.warningMsg notFoundWarningText ∈
      (processFilesTab "voorbeelden" none false (.connError "")
        (some (Json.obj (.cons "data" (Json.obj (.cons "extracted_data"
          (Json.obj (.cons "gpt_extraction_output" Json.null .nil)) .nil)) .nil)))).trace ∧
     countP isCodeFx (processFilesTab "voorbeelden" none false (.connError "")
        (some (Json.obj (.cons "data" (Json.obj (.cons "extracted_data"
          (Json.obj (.cons "gpt_extraction_output" Json.null .nil)) .nil)) .nil)))).trace = 0 ∧
     countP isDownloadFx (processFilesTab "voorbeelden" none false (.connError "")
        (some (Json.obj (.cons "data" (Json.obj (.cons "extracted_data"
          (Json.obj (.cons "gpt_extraction_output" Json.null .nil)) .nil)) .nil)))).trace = 0) :=
  ⟨by decide, by decide, by decide,
   c10_truthiness_decides "voorbeelden" none (.connError "")
     (Json.obj (.cons "data" (Json.obj (.cons "extracted_data"
       (Json.obj (.cons "gpt_extraction_output" Json.null .nil)) .nil)) .nil))
     Json.null (by decide) (by decide) (by decide)⟩
